import Mathlib

/-!
Verification of the authentication, account-lockout and authorization core of
the Warframe-Collection-Tracker repository (src/auth.ts, src/db/queries.ts),
as a shallow embedding in Lean.

Time is modelled in integer milliseconds (the resolution of the JavaScript
clock); the source floors to seconds where it writes timestamps, and we model
those floors with Nat division.  The lockout ledger (a JSON object keyed by
client identifier) is modelled as an association list with unique-key update
and delete operations matching JavaScript object semantics.  Each mutating
ledger operation additionally reports whether it scheduled a persistence pass
(the source's saveLockoutData call).
-/

namespace WCT

/-- A lockout record, from the interface LockoutRecord in src/auth.ts:
attempts, first_attempt, optional last_attempt, optional locked_until
(all timestamps in whole epoch seconds). -/
structure LockoutRecord where
  attempts : Nat
  first_attempt : Nat
  last_attempt : Option Nat
  locked_until : Option Nat
  deriving DecidableEq

/-- The lockout ledger: a JSON object mapping client identifier to record. -/
abbrev LockoutData := List (String × LockoutRecord)

/-- Property read data[ip] on a JavaScript object: first binding wins. -/
def getRec : LockoutData → String → Option LockoutRecord
  | [], _ => none
  | (k, r) :: rest, ip => if k = ip then some r else getRec rest ip

/-- Property delete on a JavaScript object: remove the binding for the key. -/
def removeRec : LockoutData → String → LockoutData
  | [], _ => []
  | (k, r) :: rest, ip =>
      if k = ip then removeRec rest ip else (k, r) :: removeRec rest ip

/-- Property write data[ip] = r: replace the existing binding in place, or
append a fresh one. -/
def setRec : LockoutData → String → LockoutRecord → LockoutData
  | [], ip, r => [(ip, r)]
  | (k, r0) :: rest, ip, r =>
      if k = ip then (k, r) :: rest else (k, r0) :: setRec rest ip r

/-- isLockedOut from src/auth.ts lines 140-148.  Returns the boolean result,
the ledger afterwards, and whether saveLockoutData was invoked.  The source
reads `if (!record?.locked_until) return false`, so a missing record, a
missing locked_until, and a zero locked_until (falsy) all return false
without touching the ledger; an unexpired nonzero lock returns true; an
expired nonzero lock deletes the record, schedules persistence and returns
false.  The comparison `Date.now() / 1000 < record.locked_until` uses exact
(unfloored) division, i.e. nowMs < 1000 * locked_until. -/
def isLockedOut (d : LockoutData) (ip : String) (nowMs : Nat) :
    Bool × LockoutData × Bool :=
  match getRec d ip with
  | none => (false, d, false)
  | some r =>
    match r.locked_until with
    | none => (false, d, false)
    | some lu =>
      if lu = 0 then (false, d, false)
      else if nowMs < 1000 * lu then (true, d, false)
      else (false, removeRec d ip, true)

/-- getLockoutRemaining from src/auth.ts lines 150-156 (Int-valued
subtraction floored, clamped at 0). -/
def getLockoutRemaining (d : LockoutData) (ip : String) (nowMs : Nat) : Int :=
  match getRec d ip with
  | none => 0
  | some r =>
    match r.locked_until with
    | none => 0
    | some lu =>
      if lu = 0 then 0
      else max 0 ((lu : Int) - (nowMs / 1000 : Nat))

/-- recordFailedAttempt from src/auth.ts lines 158-171, parameterised by the
configuration values AUTH_MAX_ATTEMPTS and AUTH_LOCKOUT_MINUTES.  Creates the
record on first failure, increments attempts, stamps last_attempt, sets
locked_until once attempts have reached the maximum, saves the ledger, and
returns AUTH_MAX_ATTEMPTS - attempts (an Int, possibly negative). -/
def recordFailedAttempt (maxAtt minutes : Nat) (d : LockoutData) (ip : String)
    (nowMs : Nat) : Int × LockoutData :=
  let r0 :=
    match getRec d ip with
    | some r => r
    | none =>
      { attempts := 0, first_attempt := nowMs / 1000
        last_attempt := none, locked_until := none }
  let att := r0.attempts + 1
  let r1 : LockoutRecord :=
    { r0 with attempts := att, last_attempt := some (nowMs / 1000) }
  let r2 : LockoutRecord :=
    if maxAtt ≤ att then
      { r1 with locked_until := some (nowMs / 1000 + minutes * 60) }
    else r1
  ((maxAtt : Int) - (att : Int), setRec d ip r2)

/-- clearFailedAttempts from src/auth.ts lines 173-179: delete the record (and
save) only when it exists.  The Bool reports whether saveLockoutData ran. -/
def clearFailedAttempts (d : LockoutData) (ip : String) : LockoutData × Bool :=
  match getRec d ip with
  | some _ => (removeRec d ip, true)
  | none => (d, false)

/-- A sequence of consecutive recordFailedAttempt calls for one client, at the
given millisecond timestamps. -/
def applyFailures (maxAtt minutes : Nat) (d : LockoutData) (ip : String)
    (ts : List Nat) : LockoutData :=
  ts.foldl (fun acc t => (recordFailedAttempt maxAtt minutes acc ip t).2) d

/-- JavaScript String.prototype.trim: strip leading and trailing whitespace
(modelled over the characters Lean classifies as whitespace). -/
def jsTrim (s : String) : String :=
  String.mk
    (((s.data.dropWhile Char.isWhitespace).reverse.dropWhile
        Char.isWhitespace).reverse)

/-- A row of the users table (id, username, password_hash, is_admin; the
schema declares username UNIQUE).  created_at is irrelevant to the claims. -/
structure User where
  id : Nat
  username : String
  password_hash : String
  is_admin : Nat
  deriving DecidableEq

/-- The users table, in insertion order. -/
abbrev UserStore := List User

/-- getUserByUsername from src/db/queries.ts lines 37-47:
SELECT ... WHERE username = ?. -/
def getUserByUsername (store : UserStore) (username : String) : Option User :=
  store.find? (fun u => u.username == username)

/-- createUser from src/db/queries.ts lines 49-61: a plain
INSERT INTO users (username, password_hash, is_admin) VALUES (?, ?, ?),
returning Number(r.lastInsertRowid) — a bare number.  Because the schema
declares username UNIQUE, the statement throws a constraint error on a
duplicate username; otherwise the row is appended and its rowid returned. -/
def q_createUser (store : UserStore) (nextId : Nat)
    (username passwordHash : String) (isAdmin : Bool) :
    Except String (Nat × UserStore) :=
  if store.any (fun u => u.username == username) then
    Except.error "UNIQUE constraint failed: users.username"
  else
    Except.ok (nextId,
      store ++ [{ id := nextId, username := username
                  password_hash := passwordHash
                  is_admin := if isAdmin then 1 else 0 }])

/-- deleteUser from src/db/queries.ts lines 74-77: DELETE ... WHERE id = ?,
returning r.changes > 0, and the table afterwards. -/
def q_deleteUser (store : UserStore) (userId : Nat) : Bool × UserStore :=
  (store.any (fun u => u.id == userId),
   store.filter (fun u => u.id != userId))

/-- updateUserPassword from src/db/queries.ts lines 79-88:
UPDATE users SET password_hash = ? WHERE id = ?, returning r.changes > 0. -/
def q_updateUserPassword (store : UserStore) (userId : Nat)
    (passwordHash : String) : Bool × UserStore :=
  (store.any (fun u => u.id == userId),
   store.map (fun u =>
     if u.id = userId then { u with password_hash := passwordHash } else u))

/-- In src/auth.ts line 276 the value returned by q.createUser (a bare
JavaScript number, per src/db/queries.ts line 60) has its `inserted`
property read.  A number has no such own property, so the access yields
undefined. -/
def insertedFieldOfNumber (_ : Nat) : Option Bool := none

/-- JavaScript truthiness of a possibly-undefined boolean: undefined is
falsy. -/
def truthy : Option Bool → Bool
  | none => false
  | some b => b

/-- Result shape of createUser in src/auth.ts:
{ success: true; user_id } | { success: false; error }. -/
inductive CreateResult where
  | success (user_id : Nat)
  | failure (error : String)
  deriving DecidableEq

/-- Result shape of deleteUser / changePassword in src/auth.ts:
{ success: true } | { success: false; error }. -/
inductive OpResult where
  | success
  | failure (error : String)
  deriving DecidableEq

/-- createUser from src/auth.ts lines 256-284.  hashFn stands for the argon2
hashPassword wrapper (its output is opaque to this logic).  The returned
triple carries the result, the users table afterwards, and whether the
password was hashed; a thrown storage exception is Except.error (the source
has only a finally, no catch).  The source checks `if (!result.inserted)`
on the bare number returned by q.createUser, so the branch taken is decided
by the truthiness of a nonexistent property. -/
def auth_createUser (hashFn : String → String) (store : UserStore)
    (nextId : Nat) (username password : String) (isAdminUser : Bool) :
    Except String (CreateResult × UserStore × Bool) :=
  let u := jsTrim username
  if u = "" ∨ password = "" then
    Except.ok (CreateResult.failure "Username and password are required",
      store, false)
  else if password.length < 4 then
    Except.ok (CreateResult.failure "Password must be at least 4 characters",
      store, false)
  else
    let hash := hashFn password
    match q_createUser store nextId u hash isAdminUser with
    | Except.error e => Except.error e
    | Except.ok (idNum, store2) =>
      if truthy (insertedFieldOfNumber idNum) then
        Except.ok (CreateResult.success idNum, store2, true)
      else
        Except.ok (CreateResult.failure "Username already exists", store2, true)

/-- deleteUser from src/auth.ts lines 286-302: reject self-deletion before
any storage access, otherwise delete by id and report User not found when no
row changed. -/
def auth_deleteUser (store : UserStore) (currentUserId targetUserId : Nat) :
    OpResult × UserStore :=
  if targetUserId = currentUserId then
    (OpResult.failure "Cannot delete your own account", store)
  else
    let res := q_deleteUser store targetUserId
    if res.1 then (OpResult.success, res.2)
    else (OpResult.failure "User not found", res.2)

/-- changePassword from src/auth.ts lines 304-321.  The triple carries the
result, the users table afterwards, and whether the password was hashed. -/
def auth_changePassword (hashFn : String → String) (store : UserStore)
    (userId : Nat) (newPassword : String) : OpResult × UserStore × Bool :=
  if newPassword.length < 4 then
    (OpResult.failure "Password must be at least 4 characters", store, false)
  else
    let hash := hashFn newPassword
    let res := q_updateUserPassword store userId hash
    if res.1 then (OpResult.success, res.2, true)
    else (OpResult.failure "User not found", res.2, true)

/-- verifyPassword from src/auth.ts lines 41-50: argonVerify models
argon2.verify(hash, password), which either resolves to a boolean or throws
(Except.error); the try/catch converts any exception into false. -/
def verifyPassword (argonVerify : String → String → Except String Bool)
    (password hash : String) : Bool :=
  match argonVerify hash password with
  | Except.ok b => b
  | Except.error _ => false

/-- Result shape of attemptLogin in src/auth.ts. -/
inductive LoginResult where
  | success (id : Nat) (username : String) (is_admin : Nat)
  | failure (error : String)
  deriving DecidableEq

/-- Observable collaborator calls made during attemptLogin: whether the
credential store was queried, and whether any argon2 verification (real or
dummy) ran. -/
structure Effects where
  lookedUpUser : Bool
  hashedPassword : Bool
  deriving DecidableEq

/-- The generic error returned to locked-out clients (src/auth.ts line 192). -/
def lockedOutMsg : String := "Too many failed attempts. Try again later."

/-- attemptLogin from src/auth.ts lines 181-241, parameterised by the argon2
oracle, the precomputed dummy hash, the users table and the configuration.
Returns the result, the ledger afterwards, and the observable effects. -/
def attemptLogin (argonVerify : String → String → Except String Bool)
    (dummyHash : String) (store : UserStore) (maxAtt minutes : Nat)
    (username password ip : String) (nowMs : Nat) (d : LockoutData) :
    LoginResult × LockoutData × Effects :=
  match isLockedOut d ip nowMs with
  | (true, d2, _) =>
    (LoginResult.failure lockedOutMsg, d2,
     { lookedUpUser := false, hashedPassword := false })
  | (false, d2, _) =>
    match getUserByUsername store (jsTrim username) with
    | none =>
      let _ := verifyPassword argonVerify password dummyHash
      let res := recordFailedAttempt maxAtt minutes d2 ip nowMs
      if res.1 ≤ 0 then
        (LoginResult.failure
          ("Too many failed attempts. Locked out for " ++ toString minutes
            ++ " minutes."), res.2,
         { lookedUpUser := true, hashedPassword := true })
      else
        (LoginResult.failure
          ("Invalid username or password. " ++ toString res.1
            ++ " attempt(s) remaining."), res.2,
         { lookedUpUser := true, hashedPassword := true })
    | some u =>
      if verifyPassword argonVerify password u.password_hash then
        (LoginResult.success u.id u.username u.is_admin,
         (clearFailedAttempts d2 ip).1,
         { lookedUpUser := true, hashedPassword := true })
      else
        let res := recordFailedAttempt maxAtt minutes d2 ip nowMs
        if res.1 ≤ 0 then
          (LoginResult.failure
            ("Too many failed attempts. Locked out for " ++ toString minutes
              ++ " minutes."), res.2,
           { lookedUpUser := true, hashedPassword := true })
        else
          (LoginResult.failure
            ("Invalid username or password. " ++ toString res.1
              ++ " attempt(s) remaining."), res.2,
           { lookedUpUser := true, hashedPassword := true })

/-- A JavaScript runtime value as stored in a session field.  Numbers are
modelled as rationals: every JavaScript number relevant here (finite
float64) is rational, and the comparisons performed by the source are exact
on the values used. -/
inductive JSVal where
  | num (q : ℚ)
  | str (s : String)
  | boolean (b : Bool)
  | nullVal
  deriving DecidableEq

/-- SessionData fields read by the auth core (src/types/express-session.d.ts);
fields may be absent. -/
structure SessionData where
  user_id : Option JSVal
  is_admin : Option JSVal
  deriving DecidableEq

/-- isAuthenticated from src/auth.ts lines 338-340:
typeof session?.user_id === 'number' && session.user_id > 0. -/
def isAuthenticated (session : Option SessionData) : Bool :=
  match session with
  | none => false
  | some s =>
    match s.user_id with
    | some (JSVal.num q) => decide (0 < q)
    | _ => false

/-- A concrete stand-in for the opaque argon2 hash function, used to
instantiate theorems on closed inputs. -/
def demoHash (p : String) : String := "argon2id$" ++ p

/-- A concrete stand-in for argon2.verify(hash, password) matching demoHash:
resolves to whether the hash is the demo hash of the password. -/
def demoVerify : String → String → Except String Bool :=
  fun h p => Except.ok (h == demoHash p)

/-- The ledger invariant from the spec: for every stored record, locked_until
is set if and only if attempts has reached the configured maximum. -/
def LockoutInv (m : Nat) (d : LockoutData) : Prop :=
  ∀ ip r, getRec d ip = some r → (r.locked_until ≠ none ↔ m ≤ r.attempts)

/-- The rational 3/2, a positive JavaScript number that is not an integer
(written as an explicit numerator/denominator pair so it evaluates). -/
def threeHalves : ℚ := ⟨3, 2, by decide, by decide⟩

theorem getRec_setRec_self (d : LockoutData) (ip : String) (r : LockoutRecord) :
    getRec (setRec d ip r) ip = some r := by
  induction d with
  | nil => simp [setRec, getRec]
  | cons hd tl ih =>
    obtain ⟨k, r0⟩ := hd
    by_cases hk : k = ip
    · simp [setRec, hk, getRec]
    · simp [setRec, hk, getRec, ih]

theorem getRec_setRec_ne (d : LockoutData) (ip j : String) (r : LockoutRecord)
    (h : j ≠ ip) : getRec (setRec d ip r) j = getRec d j := by
  induction d with
  | nil => simp [setRec, getRec, Ne.symm h]
  | cons hd tl ih =>
    obtain ⟨k, r0⟩ := hd
    by_cases hk : k = ip
    · subst hk
      simp [setRec, getRec, Ne.symm h]
    · simp [setRec, hk, getRec, ih]

theorem getRec_removeRec_self (d : LockoutData) (ip : String) :
    getRec (removeRec d ip) ip = none := by
  induction d with
  | nil => simp [removeRec, getRec]
  | cons hd tl ih =>
    obtain ⟨k, r0⟩ := hd
    by_cases hk : k = ip
    · simp [removeRec, hk, ih]
    · simp [removeRec, hk, getRec, ih]

theorem getRec_removeRec_ne (d : LockoutData) (ip j : String)
    (h : j ≠ ip) : getRec (removeRec d ip) j = getRec d j := by
  induction d with
  | nil => simp [removeRec]
  | cons hd tl ih =>
    obtain ⟨k, r0⟩ := hd
    by_cases hk : k = ip
    · subst hk
      simp [removeRec, getRec, Ne.symm h, ih]
    · simp [removeRec, hk, getRec, ih]

/-- C1: the spec says createUser("alice","pw123",false) on a fresh store
succeeds, and a second createUser("alice","other",true) returns an
inserted=false failure without throwing, leaving the first record (admin
flag 0) unchanged.  The code disagrees: q.createUser returns a bare number,
whose `inserted` property is undefined, so the first call inserts the row
yet reports "Username already exists"; and on the duplicate username the
plain INSERT throws a UNIQUE-constraint error instead of signalling
inserted=false. -/
theorem createUser_duplicate_code_bug :
    auth_createUser demoHash [] 1 "alice" "pw123" false =
      Except.ok (CreateResult.failure "Username already exists",
        [{ id := 1, username := "alice", password_hash := "argon2id$pw123",
           is_admin := 0 }], true) ∧
    auth_createUser demoHash
        [{ id := 1, username := "alice", password_hash := "argon2id$pw123",
           is_admin := 0 }] 2 "alice" "other" true =
      Except.error "UNIQUE constraint failed: users.username" := by
  constructor
  · rfl
  · rfl

/-- C6: deleteUser(currentUserId, targetUserId) with targetUserId equal to
currentUserId fails with the self-deletion error and leaves the users table
unchanged; the function never consults any admin flag, so this holds
regardless of the caller's admin status. -/
theorem deleteUser_self_rejected (store : UserStore) (uid : Nat) :
    auth_deleteUser store uid uid =
      (OpResult.failure "Cannot delete your own account", store) := by
  simp [auth_deleteUser]

/-- C8: verifyPassword never throws (it returns a plain Bool for every
behaviour of the underlying argon2 oracle, including malformed-hash
exceptions): it is true exactly when argon2.verify resolves to true, and
false exactly when argon2.verify resolves to false or throws. -/
theorem verifyPassword_never_throws
    (argonVerify : String → String → Except String Bool) (p h : String) :
    (verifyPassword argonVerify p h = true ↔
      argonVerify h p = Except.ok true) ∧
    (verifyPassword argonVerify p h = false ↔
      argonVerify h p = Except.ok false ∨
        ∃ e, argonVerify h p = Except.error e) := by
  unfold verifyPassword
  cases hv : argonVerify h p with
  | ok b => cases b <;> simp
  | error e => simp

/-- C7 counterexample: a session whose user_id is the non-integer number 3/2
is accepted by isAuthenticated, so the claim that non-integer user_id values
are rejected is false (the source only checks typeof number and > 0). -/
theorem isAuthenticated_non_integer_counterexample :
    isAuthenticated
        (some ⟨some (JSVal.num threeHalves), none⟩) = true ∧
      threeHalves.den ≠ 1 := by
  constructor
  · decide
  · decide

/-- C7 amended: isAuthenticated(session) is true iff the session is present
and carries a numeric user_id that is strictly positive (any positive
number, not necessarily an integer); absent, non-numeric, zero or negative
user_id values yield false. -/
theorem isAuthenticated_iff_positive_number (s : Option SessionData) :
    isAuthenticated s = true ↔
      ∃ sd q, s = some sd ∧ sd.user_id = some (JSVal.num q) ∧ 0 < q := by
  cases s with
  | none => simp [isAuthenticated]
  | some sd =>
    cases hu : sd.user_id with
    | none => simp [isAuthenticated, hu]
    | some v =>
      cases v with
      | num q => simp [isAuthenticated, hu]
      | str s2 => simp [isAuthenticated, hu]
      | boolean b => simp [isAuthenticated, hu]
      | nullVal => simp [isAuthenticated, hu]

/-- C10 counterexample: createUser with the empty password (length 0 < 4)
returns the failure "Username and password are required", not the claimed
"Password must be at least 4 characters", so the claim's universal message
for passwords shorter than 4 characters is false (though no hashing and no
store modification occur). -/
theorem createUser_empty_password_counterexample :
    auth_createUser demoHash [] 1 "bob" "" false =
      Except.ok (CreateResult.failure "Username and password are required",
        [], false) ∧
    ("" : String).length < 4 ∧
    "Username and password are required" ≠
      "Password must be at least 4 characters" := by
  refine ⟨rfl, by decide, by decide⟩

/-- C10 amended: for a non-empty trimmed username and a non-empty password
shorter than 4 characters, createUser fails with "Password must be at least
4 characters" without hashing and without touching the store (the empty
password instead triggers the required-fields failure); changePassword fails
the same way for every password shorter than 4 characters.  The threshold 4
is a literal in both functions, independent of all configuration
parameters. -/
theorem short_password_rejected (hashFn : String → String)
    (store : UserStore) (nextId userId : Nat) (username password : String)
    (isAdminUser : Bool) (hu : jsTrim username ≠ "") (hp : password ≠ "")
    (hlen : password.length < 4) :
    auth_createUser hashFn store nextId username password isAdminUser =
      Except.ok
        (CreateResult.failure "Password must be at least 4 characters",
          store, false) ∧
    ∀ p2 : String, p2.length < 4 →
      auth_changePassword hashFn store userId p2 =
        (OpResult.failure "Password must be at least 4 characters",
          store, false) := by
  constructor
  · simp [auth_createUser, hu, hp, hlen]
  · intro p2 hl2
    simp [auth_changePassword, hl2]

/-- C10 witness: the amended theorem applied at concrete inputs. -/
theorem short_password_rejected_witness :
    auth_createUser demoHash [] 7 "bob" "abc" false =
      Except.ok
        (CreateResult.failure "Password must be at least 4 characters",
          [], false) ∧
    auth_changePassword demoHash [] 7 "ab" =
      (OpResult.failure "Password must be at least 4 characters",
        [], false) :=
  ⟨(short_password_rejected demoHash [] 7 7 "bob" "abc" false (by decide)
      (by decide) (by decide)).1,
   (short_password_rejected demoHash [] 7 7 "bob" "abc" false (by decide)
      (by decide) (by decide)).2 "ab" (by decide)⟩

theorem applyFailures_cons (m mi : Nat) (d : LockoutData) (ip : String)
    (t : Nat) (ts : List Nat) :
    applyFailures m mi d ip (t :: ts) =
      applyFailures m mi (recordFailedAttempt m mi d ip t).2 ip ts := rfl

theorem applyFailures_spec (m mi : Nat) (ip : String) (ts : List Nat) :
    ∀ (d : LockoutData) (r : LockoutRecord), getRec d ip = some r →
      ∃ s, getRec (applyFailures m mi d ip ts) ip = some s ∧
        s.attempts = r.attempts + ts.length ∧
        (s.attempts < m → s.locked_until = r.locked_until) := by
  induction ts with
  | nil =>
    intro d r h
    exact ⟨r, h, by simp [applyFailures], fun _ => rfl⟩
  | cons t ts ih =>
    intro d r h
    rw [applyFailures_cons]
    by_cases hm : m ≤ r.attempts + 1
    · have h2 : getRec (recordFailedAttempt m mi d ip t).2 ip =
          some { r with
                 attempts := r.attempts + 1
                 last_attempt := some (t / 1000)
                 locked_until := some (t / 1000 + mi * 60) } := by
        simp [recordFailedAttempt, h, hm, getRec_setRec_self]
      obtain ⟨s, hs, hatt, hlu⟩ := ih _ _ h2
      simp at hatt
      refine ⟨s, hs, by simp only [List.length_cons]; omega, ?_⟩
      intro hlt
      exact absurd hm (by omega)
    · have h2 : getRec (recordFailedAttempt m mi d ip t).2 ip =
          some { r with
                 attempts := r.attempts + 1
                 last_attempt := some (t / 1000) } := by
        simp [recordFailedAttempt, h, hm, getRec_setRec_self]
      obtain ⟨s, hs, hatt, hlu⟩ := ih _ _ h2
      simp at hatt
      refine ⟨s, hs, by simp only [List.length_cons]; omega, ?_⟩
      intro hlt
      exact hlu hlt

theorem applyFailures_fresh (m mi : Nat) (d : LockoutData) (ip : String)
    (t : Nat) (ts : List Nat) (h : getRec d ip = none) :
    ∃ s, getRec (applyFailures m mi d ip (t :: ts)) ip = some s ∧
      s.attempts = ts.length + 1 ∧
      (s.attempts < m → s.locked_until = none) := by
  rw [applyFailures_cons]
  by_cases hm : m ≤ 1
  · have h2 : getRec (recordFailedAttempt m mi d ip t).2 ip =
        some { attempts := 1
               first_attempt := t / 1000
               last_attempt := some (t / 1000)
               locked_until := some (t / 1000 + mi * 60) } := by
      simp [recordFailedAttempt, h, hm, getRec_setRec_self]
    obtain ⟨s, hs, hatt, hlu⟩ := applyFailures_spec m mi ip ts _ _ h2
    simp at hatt
    refine ⟨s, hs, by omega, ?_⟩
    intro hlt
    exact absurd hm (by omega)
  · have h2 : getRec (recordFailedAttempt m mi d ip t).2 ip =
        some { attempts := 1
               first_attempt := t / 1000
               last_attempt := some (t / 1000)
               locked_until := none } := by
      simp [recordFailedAttempt, h, hm, getRec_setRec_self]
    obtain ⟨s, hs, hatt, hlu⟩ := applyFailures_spec m mi ip ts _ _ h2
    simp at hatt
    refine ⟨s, hs, by omega, ?_⟩
    intro hlt
    exact hlu hlt

/-- C2: for a fresh client identifier, the n-th consecutive
recordFailedAttempt call (1 <= n <= maxAttempts, call times arbitrary)
returns maxAttempts - n. -/
theorem recordFailedAttempt_countdown (m mi : Nat) (d : LockoutData)
    (ip : String) (ts : List Nat) (t : Nat) (n : Nat)
    (hfresh : getRec d ip = none) (hlen : ts.length + 1 = n)
    (h1 : 1 ≤ n) (hn : n ≤ m) :
    (recordFailedAttempt m mi (applyFailures m mi d ip ts) ip t).1 =
      (m : Int) - (n : Int) := by
  cases ts with
  | nil =>
    simp at hlen
    simp [applyFailures, recordFailedAttempt, hfresh]
    omega
  | cons t0 ts2 =>
    simp at hlen
    obtain ⟨s, hs, hatt, _⟩ := applyFailures_fresh m mi d ip t0 ts2 hfresh
    simp [recordFailedAttempt, hs]
    omega

/-- C2 witness: the third consecutive failure with maxAttempts = 5 returns
5 - 3 = 2. -/
theorem recordFailedAttempt_countdown_witness :
    (1 ≤ 3 ∧ 3 ≤ 5) ∧
    (recordFailedAttempt 5 15 (applyFailures 5 15 [] "1.2.3.4" [100, 200])
        "1.2.3.4" 300).1 = (5 : Int) - (3 : Int) :=
  ⟨⟨by decide, by decide⟩,
   recordFailedAttempt_countdown 5 15 [] "1.2.3.4" [100, 200] 300 3 rfl rfl
     (by decide) (by decide)⟩

/-- C3 counterexample: with maxAttempts = 5 and lockoutDurationMinutes = 15,
five consecutive failures at millisecond 1500 lock the client, but at
millisecond 901000 — only 899500 ms after the locking attempt, strictly
before 15 * 60 seconds have elapsed — isLockedOut already returns false,
because the code floors the locking time to whole seconds before adding the
duration. -/
theorem lockout_expiry_early_counterexample :
    (901000 : Nat) - 1500 < 15 * 60 * 1000 ∧
    (isLockedOut
        (applyFailures 5 15 [] "1.2.3.4" [1500, 1500, 1500, 1500, 1500])
        "1.2.3.4" 901000).1 = false := by
  constructor
  · decide
  · decide

/-- C3 amended: after exactly maxAttempts consecutive failures, the last at
millisecond t, isLockedOut is true exactly at instants strictly before
1000 * (t / 1000 + minutes * 60) milliseconds — i.e. the duration is
measured from the start of the whole second containing the locking attempt —
and once that bound is reached isLockedOut returns false and the client's
record is removed. -/
theorem lockout_window (m mi : Nat) (d : LockoutData) (ip : String)
    (ts : List Nat) (t nowMs : Nat) (hfresh : getRec d ip = none)
    (hlen : ts.length + 1 = m) (hmi : 1 ≤ mi) :
    ((isLockedOut (recordFailedAttempt m mi (applyFailures m mi d ip ts)
        ip t).2 ip nowMs).1 = true ↔
      nowMs < 1000 * (t / 1000 + mi * 60)) ∧
    (1000 * (t / 1000 + mi * 60) ≤ nowMs →
      (isLockedOut (recordFailedAttempt m mi (applyFailures m mi d ip ts)
          ip t).2 ip nowMs).1 = false ∧
      getRec (isLockedOut (recordFailedAttempt m mi
          (applyFailures m mi d ip ts) ip t).2 ip nowMs).2.1 ip = none) := by
  obtain ⟨r, hrec, hlu⟩ : ∃ r,
      getRec (recordFailedAttempt m mi (applyFailures m mi d ip ts)
        ip t).2 ip = some r ∧
      r.locked_until = some (t / 1000 + mi * 60) := by
    cases ts with
    | nil =>
      simp at hlen
      refine ⟨{ attempts := 1
                first_attempt := t / 1000
                last_attempt := some (t / 1000)
                locked_until := some (t / 1000 + mi * 60) }, ?_, rfl⟩
      simp [applyFailures, recordFailedAttempt, hfresh, getRec_setRec_self,
        hlen.symm]
    | cons t0 ts2 =>
      simp at hlen
      obtain ⟨s, hs, hatt, _⟩ := applyFailures_fresh m mi d ip t0 ts2 hfresh
      have hmle : m ≤ s.attempts + 1 := by omega
      refine ⟨{ s with
                attempts := s.attempts + 1
                last_attempt := some (t / 1000)
                locked_until := some (t / 1000 + mi * 60) }, ?_, rfl⟩
      simp [recordFailedAttempt, hs, hmle, getRec_setRec_self]
  have hLpos : ¬ (t / 1000 + mi * 60 = 0) := by omega
  constructor
  · by_cases hnow : nowMs < 1000 * (t / 1000 + mi * 60)
    · simp [isLockedOut, hrec, hlu, hLpos, hnow]
    · simp [isLockedOut, hrec, hlu, hLpos, hnow]
  · intro hexp
    have hnow : ¬ nowMs < 1000 * (t / 1000 + mi * 60) := by omega
    constructor
    · simp [isLockedOut, hrec, hlu, hLpos, hnow]
    · simp [isLockedOut, hrec, hlu, hLpos, hnow, getRec_removeRec_self]

/-- C3 witness: the amended window theorem at maxAttempts = 5, 15 minutes,
locking attempt at millisecond 1500, observed at millisecond 900999. -/
theorem lockout_window_witness :
    ((isLockedOut (recordFailedAttempt 5 15
        (applyFailures 5 15 [] "a" [10, 20, 30, 40]) "a" 1500).2
        "a" 900999).1 = true ↔
      900999 < 1000 * (1500 / 1000 + 15 * 60)) ∧
    (1000 * (1500 / 1000 + 15 * 60) ≤ 900999 →
      (isLockedOut (recordFailedAttempt 5 15
          (applyFailures 5 15 [] "a" [10, 20, 30, 40]) "a" 1500).2
          "a" 900999).1 = false ∧
      getRec (isLockedOut (recordFailedAttempt 5 15
          (applyFailures 5 15 [] "a" [10, 20, 30, 40]) "a" 1500).2
          "a" 900999).2.1 "a" = none) :=
  lockout_window 5 15 [] "a" [10, 20, 30, 40] 1500 900999 rfl rfl
    (by decide)

/-- C4 counterexample: a ledger record whose locked_until is the (expired)
epoch second 0 is observed by isLockedOut at millisecond 123456 — clock
second 123, so the lock is strictly in the past — yet the record is not
deleted and no persistence is scheduled (the falsy check
`!record?.locked_until` treats a zero locked_until like an absent one), so
the claim that every observed expired record is deleted is false. -/
theorem isLockedOut_zero_lock_counterexample :
    (0 : Nat) < 123456 / 1000 ∧
    isLockedOut [("9.9.9.9", ⟨5, 0, none, some 0⟩)] "9.9.9.9" 123456 =
      (false, [("9.9.9.9", ⟨5, 0, none, some 0⟩)], false) := by
  constructor
  · decide
  · rfl

/-- C4 amended: isLockedOut returns true iff a record exists for the
identifier whose locked_until is present, nonzero, and strictly in the
future at the single clock read (nowMs < 1000 * locked_until); when it
observes a record whose locked_until is present, nonzero and expired, it
deletes that record and schedules persistence, returning false; a record
whose locked_until is absent or zero is treated as not locked and left in
place. -/
theorem isLockedOut_spec (d : LockoutData) (ip : String) (nowMs : Nat) :
    ((isLockedOut d ip nowMs).1 = true ↔
      ∃ r lu, getRec d ip = some r ∧ r.locked_until = some lu ∧ lu ≠ 0 ∧
        nowMs < 1000 * lu) ∧
    (∀ r lu, getRec d ip = some r → r.locked_until = some lu → lu ≠ 0 →
      1000 * lu ≤ nowMs →
      isLockedOut d ip nowMs = (false, removeRec d ip, true)) := by
  constructor
  · cases hg : getRec d ip with
    | none => simp [isLockedOut, hg]
    | some r =>
      cases hlu : r.locked_until with
      | none => simp [isLockedOut, hg, hlu]
      | some lu =>
        by_cases h0 : lu = 0
        · simp [isLockedOut, hg, hlu, h0]
        · by_cases hlt : nowMs < 1000 * lu
          · simp [isLockedOut, hg, hlu, h0, hlt]
          · simp [isLockedOut, hg, hlu, h0, hlt]
  · intro r lu hg hlu h0 hle
    have hlt : ¬ nowMs < 1000 * lu := by omega
    simp [isLockedOut, hg, hlu, h0, hlt]

/-- C4 witness: the amended specification applied to a record whose nonzero
lock (second 10) has expired by millisecond 20000: the record is deleted and
persistence scheduled. -/
theorem isLockedOut_spec_witness :
    isLockedOut [("b", ⟨5, 0, none, some 10⟩)] "b" 20000 =
      (false, removeRec [("b", ⟨5, 0, none, some 10⟩)] "b", true) :=
  (isLockedOut_spec [("b", ⟨5, 0, none, some 10⟩)] "b" 20000).2
    ⟨5, 0, none, some 10⟩ 10 rfl rfl (by decide) (by decide)

theorem isLockedOut_true_state (d : LockoutData) (ip : String) (nowMs : Nat)
    (h : (isLockedOut d ip nowMs).1 = true) :
    isLockedOut d ip nowMs = (true, d, false) := by
  cases hg : getRec d ip with
  | none => simp [isLockedOut, hg] at h
  | some r =>
    cases hlu : r.locked_until with
    | none => simp [isLockedOut, hg, hlu] at h
    | some lu =>
      by_cases h0 : lu = 0
      · simp [isLockedOut, hg, hlu, h0] at h
      · by_cases hlt : nowMs < 1000 * lu
        · simp [isLockedOut, hg, hlu, h0, hlt]
        · simp [isLockedOut, hg, hlu, h0, hlt] at h

/-- C5: while a client is locked out, attemptLogin returns the identical
generic failure for every pair of credentials — including correct ones —
with no credential-store lookup, no hash verification (real or dummy), and
the lockout ledger unchanged. -/
theorem attemptLogin_locked_generic
    (argonVerify : String → String → Except String Bool)
    (dummyHash : String) (store : UserStore) (m mi : Nat)
    (u1 p1 u2 p2 ip : String) (now1 now2 : Nat) (d : LockoutData)
    (h1 : (isLockedOut d ip now1).1 = true)
    (h2 : (isLockedOut d ip now2).1 = true) :
    attemptLogin argonVerify dummyHash store m mi u1 p1 ip now1 d =
      (LoginResult.failure lockedOutMsg, d, ⟨false, false⟩) ∧
    attemptLogin argonVerify dummyHash store m mi u2 p2 ip now2 d =
      (LoginResult.failure lockedOutMsg, d, ⟨false, false⟩) := by
  constructor
  · unfold attemptLogin
    rw [isLockedOut_true_state d ip now1 h1]
  · unfold attemptLogin
    rw [isLockedOut_true_state d ip now2 h2]

/-- C5 witness: a locked-out client gets the same generic failure for the
correct credentials ("alice"/"pw123" verify against the stored hash under
demoVerify) and for wrong ones, with untouched ledger and no effects. -/
theorem attemptLogin_locked_generic_witness :
    (isLockedOut [("1.2.3.4", ⟨5, 0, none, some 100⟩)] "1.2.3.4" 0).1 =
      true ∧
    attemptLogin demoVerify "dummy"
        [⟨1, "alice", demoHash "pw123", 0⟩] 5 15 "alice" "pw123" "1.2.3.4" 0
        [("1.2.3.4", ⟨5, 0, none, some 100⟩)] =
      (LoginResult.failure lockedOutMsg,
        [("1.2.3.4", ⟨5, 0, none, some 100⟩)], ⟨false, false⟩) ∧
    attemptLogin demoVerify "dummy"
        [⟨1, "alice", demoHash "pw123", 0⟩] 5 15 "bob" "zzzz" "1.2.3.4" 0
        [("1.2.3.4", ⟨5, 0, none, some 100⟩)] =
      (LoginResult.failure lockedOutMsg,
        [("1.2.3.4", ⟨5, 0, none, some 100⟩)], ⟨false, false⟩) := by
  refine ⟨by decide, ?_, ?_⟩
  · exact (attemptLogin_locked_generic demoVerify "dummy"
      [⟨1, "alice", demoHash "pw123", 0⟩] 5 15 "alice" "pw123" "bob" "zzzz"
      "1.2.3.4" 0 0 [("1.2.3.4", ⟨5, 0, none, some 100⟩)]
      (by decide) (by decide)).1
  · exact (attemptLogin_locked_generic demoVerify "dummy"
      [⟨1, "alice", demoHash "pw123", 0⟩] 5 15 "alice" "pw123" "bob" "zzzz"
      "1.2.3.4" 0 0 [("1.2.3.4", ⟨5, 0, none, some 100⟩)]
      (by decide) (by decide)).2

/-- C9: each lockout-ledger operation — recordFailedAttempt,
clearFailedAttempts and isLockedOut — preserves the invariant that a stored
record has locked_until set iff its attempts count has reached the
configured maximum. -/
theorem lockout_ops_preserve_invariant (m mi : Nat) (d : LockoutData)
    (ip : String) (nowMs : Nat) (hinv : LockoutInv m d) :
    LockoutInv m (recordFailedAttempt m mi d ip nowMs).2 ∧
    LockoutInv m (clearFailedAttempts d ip).1 ∧
    LockoutInv m (isLockedOut d ip nowMs).2.1 := by
  refine ⟨?_, ?_, ?_⟩
  · intro k r hk
    by_cases hki : k = ip
    · subst hki
      cases hg : getRec d k with
      | none =>
        by_cases hm : m ≤ 1
        · simp [recordFailedAttempt, hg, hm, getRec_setRec_self] at hk
          subst hk
          simp [hm]
        · simp [recordFailedAttempt, hg, hm, getRec_setRec_self] at hk
          subst hk
          simp [hm]
      | some r0 =>
        have hiff := hinv k r0 hg
        by_cases hm : m ≤ r0.attempts + 1
        · simp [recordFailedAttempt, hg, hm, getRec_setRec_self] at hk
          subst hk
          simp [hm]
        · simp [recordFailedAttempt, hg, hm, getRec_setRec_self] at hk
          subst hk
          have hnone : r0.locked_until = none := by
            by_contra hne
            exact absurd (hiff.mp hne) (by omega)
          simp [hm, hnone]
    · have hrw : getRec (recordFailedAttempt m mi d ip nowMs).2 k =
          getRec d k := by
        simp only [recordFailedAttempt]
        exact getRec_setRec_ne _ _ _ _ hki
      rw [hrw] at hk
      exact hinv k r hk
  · intro k r hk
    cases hg : getRec d ip with
    | some r0 =>
      simp [clearFailedAttempts, hg] at hk
      by_cases hki : k = ip
      · subst hki
        rw [getRec_removeRec_self] at hk
        exact absurd hk (by simp)
      · rw [getRec_removeRec_ne _ _ _ hki] at hk
        exact hinv k r hk
    | none =>
      simp [clearFailedAttempts, hg] at hk
      exact hinv k r hk
  · intro k r hk
    cases hg : getRec d ip with
    | none =>
      simp [isLockedOut, hg] at hk
      exact hinv k r hk
    | some r0 =>
      cases hlu : r0.locked_until with
      | none =>
        simp [isLockedOut, hg, hlu] at hk
        exact hinv k r hk
      | some lu =>
        by_cases h0 : lu = 0
        · simp [isLockedOut, hg, hlu, h0] at hk
          exact hinv k r hk
        · by_cases hlt : nowMs < 1000 * lu
          · simp [isLockedOut, hg, hlu, h0, hlt] at hk
            exact hinv k r hk
          · simp [isLockedOut, hg, hlu, h0, hlt] at hk
            by_cases hki : k = ip
            · subst hki
              rw [getRec_removeRec_self] at hk
              exact absurd hk (by simp)
            · rw [getRec_removeRec_ne _ _ _ hki] at hk
              exact hinv k r hk

/-- C9 witness: the preservation theorem applied to the empty ledger, which
trivially satisfies the invariant. -/
theorem lockout_ops_preserve_invariant_witness :
    LockoutInv 5 (recordFailedAttempt 5 15 [] "a" 0).2 ∧
    LockoutInv 5 (clearFailedAttempts [] "a").1 ∧
    LockoutInv 5 (isLockedOut [] "a" 0).2.1 :=
  lockout_ops_preserve_invariant 5 15 [] "a" 0
    (fun ip r h => by simp [getRec] at h)

end WCT
